import Mathlib

/-!
Verification of the luxon logging core (`luxon/core/logger.py`,
`luxon/core/cache/cache.py`, `luxon/utils/unique.py`) against its
natural-language specification.

The Python code is shallowly embedded: strings are Lean `String`s,
Python exceptions become `Option`/`Except` results or explicit error
components, ambient context (the current request, the random id
generator, the filesystem socket probe) becomes explicit parameters,
and the logging side effects (calls to `logger_facility`) become the
ordered list of emitted lines.
-/

/-! ## Python string primitives

`str.strip`, `str.upper`, `str.lower` and `int(str)` used by the
source, modelled over the character list of a `String`. `isPySpace`
covers the ASCII whitespace characters Python strips. -/

def isPySpace (c : Char) : Bool :=
  c == ' ' || c == '\t' || c == '\n' || c == '\r' || c == '\x0b' || c == '\x0c'

/-- Python `str.strip()`: drop leading and trailing whitespace. -/
def pyStrip (s : String) : String :=
  String.mk (((s.data.dropWhile isPySpace).reverse.dropWhile isPySpace).reverse)

/-- Python `str.upper()` (ASCII case mapping). -/
def pyUpper (s : String) : String :=
  String.mk (s.data.map Char.toUpper)

/-- Python `str.lower()` (ASCII case mapping). -/
def pyLower (s : String) : String :=
  String.mk (s.data.map Char.toLower)

def digitVal (c : Char) : Nat := c.toNat - 48

/-- Digits of a Python integer literal after the first digit: a run of
digits in which a single underscore may separate two digits. -/
def pyNatAux : Nat → List Char → Option Nat
  | acc, [] => some acc
  | acc, c :: cs =>
    if c.isDigit then pyNatAux (acc * 10 + digitVal c) cs
    else if c = '_' then
      match cs with
      | [] => none
      | d :: cs2 => if d.isDigit then pyNatAux (acc * 10 + digitVal d) cs2 else none
    else none

def parsePyNat : List Char → Option Nat
  | [] => none
  | c :: cs => if c.isDigit then pyNatAux (digitVal c) cs else none

/-- Python `int(s)` on a string: optional surrounding whitespace, an
optional sign, then a digit run; `none` models the `ValueError`. -/
def pyParseInt (s : String) : Option Int :=
  match (pyStrip s).data with
  | '+' :: rest => (parsePyNat rest).map Int.ofNat
  | '-' :: rest => (parsePyNat rest).map (fun n => -(Int.ofNat n))
  | l => (parsePyNat l).map Int.ofNat

/-! ## Chunking utilities

`luxon.utils.split.list_of_lines` and `split_by_n` are imported by
`logger.py` but their module is not part of the sources provided. -/

def splitLinesChars : List Char → List (List Char)
  | [] => [[]]
  | c :: cs =>
    if c = '\n' then [] :: splitLinesChars cs
    else
      match splitLinesChars cs with
      | [] => [[c]]
      | l :: ls => (c :: l) :: ls

/-- Modelled from the spec: `luxon.utils.split.list_of_lines` (module
absent from the sources) splits the message on newlines. -/
def list_of_lines (s : String) : List String :=
  (splitLinesChars s.data).map String.mk

/-- Peel off chunks of `m + 1` characters. The first argument is fuel
bounding the number of chunks; it is initialised to the length of the
list, which always suffices because every step consumes at least one
character, so the fuel-exhausted branch is never reached. -/
def chunkChars (m : Nat) : Nat → List Char → List (List Char)
  | _, [] => []
  | 0, _ => []
  | Nat.succ fuel, c :: cs =>
    ((c :: cs).take (m + 1)) :: chunkChars m fuel ((c :: cs).drop (m + 1))

/-- Modelled from the spec: `luxon.utils.split.split_by_n` (module
absent from the sources) splits a line into consecutive chunks of at
most `n` characters, yielding nothing for an empty line. `n` is
expected to be positive (the source always passes 300). -/
def split_by_n (s : String) (n : Nat) : List String :=
  (chunkChars (n - 1) s.data.length s.data).map String.mk

/-- The chunk list `log_formatted` builds: split on newlines, then each
line into chunks of at most 300 characters (logger.py lines 85-92). -/
def logChunks (m : String) : List String :=
  ((list_of_lines m).map (fun l => split_by_n l 300)).flatten

/-! ## log_formatted (logger.py lines 60-122)

The ambient pieces become parameters: `request` is the rendered
request-context string (empty when no request context exists),
`fresh` is the value `string_id(6)` would return, and `timer` holds
the already formatted `format_seconds` output for a supplied timer.
The returned value is the ordered list of lines passed to
`logger_facility`; `none` models the `IndexError` path in which
`message[0]` is read from an empty chunk list. -/

/-- Duration suffix: `message += ' (DURATION: %s)' % format_seconds(timer)`. -/
def normalize_message (message : String) (timer : Option String) : String :=
  match timer with
  | some t => message ++ " (DURATION: " ++ t ++ ")"
  | none => message

/-- The correlation tag `'(%s) ' % log_id` put in front of a line. -/
def corrTag (i : String) : String := "(" ++ i ++ ") "

/-- Single-chunk path: `msg = '(%s) ' % log_id` when an id was given. -/
def idPart : Option String → String
  | some i => corrTag i
  | none => ""

/-- Single-chunk path: `msg += '%s %s' % (prepend, message[0])`. -/
def bodyPart : Option String → String → String
  | some p, m0 => p ++ " " ++ m0
  | none, m0 => m0

/-- Single-chunk path: `msg = '%s %s' % (msg, append)`. -/
def appPart : Option String → String
  | some a => " " ++ a
  | none => ""

/-- The single rendered line of the one-chunk path, including the
unconditional `msg = '%s %s' % (msg, request)` step. -/
def renderSingle (request : String) (log_id prepend append : Option String)
    (m0 : String) : String :=
  idPart log_id ++ bodyPart prepend m0 ++ appPart append ++ " " ++ request

/-- Lead line `"(%s) #0 %s" % (log_id, prepend)`, only when prepend is set. -/
def leadLines (i : String) : Option String → List String
  | some p => [corrTag i ++ "#0 " ++ p]
  | none => []

/-- Chunk lines `'(%s) %s# %s' % (log_id, line+1, p)` for each chunk. -/
def chunkLines (i : String) (chunks : List String) : List String :=
  chunks.enum.map (fun pr => corrTag i ++ toString (pr.1 + 1) ++ "# " ++ pr.2)

/-- Trailing line `"(%s) #%s %s" % (log_id, line+2, append)`; `line` is
the last enumeration index, so the tag number is `n + 1` for `n` chunks. -/
def trailLines (i : String) (a : Option String) (n : Nat) : List String :=
  match a with
  | some s => [corrTag i ++ "#" ++ toString (n + 1) ++ " " ++ s]
  | none => []

def renderMulti (i : String) (prepend append : Option String)
    (chunks : List String) : List String :=
  leadLines i prepend ++ chunkLines i chunks ++ trailLines i append chunks.length

/-- Dispatch on the chunk count (`if len(message) > 1`). On the
multi-chunk path the correlation id defaults to the fresh random id;
on the one-chunk path `message[0]` of an empty list is an `IndexError`,
modelled as `none`. -/
def emitLines (request fresh : String) (log_id prepend append : Option String)
    (chunks : List String) : Option (List String) :=
  if 1 < chunks.length then
    some (renderMulti (log_id.getD fresh) prepend append chunks)
  else
    match chunks with
    | [] => none
    | m0 :: _ => some [renderSingle request log_id prepend append m0]

/-- logger.py `log_formatted`: strip the message, short-circuit when it
is empty, append the duration, chunk, and emit. -/
def log_formatted (request fresh message : String)
    (prepend append : Option String) (timer log_id : Option String) :
    Option (List String) :=
  if pyStrip message = "" then some []
  else
    emitLines request fresh log_id prepend append
      (logChunks (normalize_message (pyStrip message) timer))

/-! ## GetLogger severity gate (logger.py lines 377-461) -/

def CRITICAL : Int := 50
def ERROR : Int := 40
def WARNING : Int := 30
def INFO : Int := 20
def DEBUG : Int := 10

/-- One of the five GetLogger emit methods: `if self.level <= rank:
log_formatted(...)`. The second component counts the `log_formatted`
invocations performed (0 when the severity gate is closed). -/
def getLoggerEmit (effLevel rank : Int) (request fresh msg : String)
    (prepend append timer log_id : Option String) :
    Option (List String) × Nat :=
  if effLevel ≤ rank then
    (log_formatted request fresh msg prepend append timer log_id, 1)
  else (some [], 0)

/-! ## Handlers, configuration and set_level (logger.py lines 145-234) -/

inductive Fmt
  | verbose
  | simple
deriving DecidableEq

/-- A logging handler as configure builds or encounters them. `stream`
is a stdout StreamHandler, the two syslog forms record the address
resolution, `file` a FileHandler; `other` stands for a pre-existing
handler object attached before the call. The Bool records whether the
context-enrichment `_TachyonFilter` was installed. -/
inductive Handler
  | stream (fmt : Option Fmt) (filtered : Bool)
  | syslogUnix (path : String) (fmt : Option Fmt) (filtered : Bool)
  | syslogNet (host : String) (port : Nat) (fmt : Option Fmt) (filtered : Bool)
  | file (path : String) (fmt : Option Fmt) (filtered : Bool)
  | other (tag : Nat)
deriving DecidableEq

/-- A Python `logging.Logger`: its name, numeric level and handler list. -/
structure PyLogger where
  name : String
  level : Int
  handlers : List Handler
deriving DecidableEq

/-- The `level` argument of `set_level`: an int or a string. -/
inductive LevelArg
  | num (n : Int)
  | str (s : String)

def levelNames : List String := ["CRITICAL", "ERROR", "WARNING", "INFO", "DEBUG"]

/-- `getattr(logging, level)` for the five accepted names. -/
def levelValue (s : String) : Int :=
  if s = "CRITICAL" then CRITICAL
  else if s = "ERROR" then ERROR
  else if s = "WARNING" then WARNING
  else if s = "INFO" then INFO
  else DEBUG

/-- logger.py `set_level`. The second component is the `ValueError`
message when one is raised; the first is the logger afterwards (the
raise happens before any `setLevel`, so the logger is returned
unchanged in the error case). -/
def set_level (lg : PyLogger) (level : LevelArg) : PyLogger × Option String :=
  match level with
  | LevelArg.num n => (⟨lg.name, n, lg.handlers⟩, none)
  | LevelArg.str s =>
    match pyParseInt s with
    | some n => (⟨lg.name, n, lg.handlers⟩, none)
    | none =>
      if pyStrip (pyUpper s) ∈ levelNames then
        (⟨lg.name, levelValue (pyStrip (pyUpper s)), lg.handlers⟩, none)
      else
        (lg, some ("Invalid logging level \x27" ++ pyStrip (pyUpper s) ++
          "\x27 for logger \x27" ++ lg.name ++ "\x27"))

/-- One configuration section: the optional keys configure reads.
`log_server_port` is `section.get('log_server_port', fallback=514)`. -/
structure Sect where
  nameKey : Option String
  log_level : Option String
  log_stdout : Bool
  log_server : Option String
  log_server_port : Nat
  log_file : Option String
deriving DecidableEq

/-- The loop `for handler in logger.handlers: logger.removeHandler(handler)`:
Python iterates by a rising index over the very list being shortened, so
each step reads the element at index `i` of the current list and erases
it. The iteration stops as soon as the index falls off the end. -/
def removeLoopAux : Nat → Nat → List Handler → List Handler
  | 0, _, l => l
  | Nat.succ fuel, i, l =>
    match l.get? i with
    | none => l
    | some h => removeLoopAux fuel (i + 1) (l.erase h)

def pyRemoveHandlers (l : List Handler) : List Handler :=
  removeLoopAux l.length 0 l

/-- logger.py `configure`. `env` is the `is_socket` probe for the two
well-known syslog socket paths; `config` is the list of present
sections. An `Except.error` is the `ValueError` propagating out of
`set_level`. -/
def configure (env : String → Bool) (config : List (String × Sect))
    (cs : String) (lg : PyLogger) : Except String PyLogger :=
  let lg :=
    if cs = "application" ∧ (config.lookup cs).isNone then
      ⟨lg.name, lg.level,
        pyRemoveHandlers lg.handlers ++ [Handler.stream (some Fmt.simple) true]⟩
    else lg
  match config.lookup cs with
  | none => Except.ok lg
  | some sect =>
    let lg0 : PyLogger := ⟨lg.name, lg.level, []⟩
    let step1 : Except String PyLogger :=
      match sect.log_level with
      | some l =>
        match set_level lg0 (LevelArg.str l) with
        | (_, some e) => Except.error e
        | (lg1, none) => Except.ok lg1
      | none =>
        if cs = "application" then Except.ok (set_level lg0 (LevelArg.str "WARNING")).1
        else Except.ok lg0
    match step1 with
    | Except.error e => Except.error e
    | Except.ok lg1 =>
      let hs1 :=
        if sect.log_stdout then lg1.handlers ++ [Handler.stream (some Fmt.verbose) true]
        else lg1.handlers
      let hs2 :=
        match sect.log_server with
        | none => hs1
        | some host =>
          let port := sect.log_server_port
          let h :=
            if host = "127.0.0.1" ∨ pyLower host = "localhost" then
              if env "/dev/log" then
                Handler.syslogUnix "/dev/log" (some Fmt.verbose) true
              else if env "/var/run/syslog" then
                Handler.syslogUnix "/var/run/syslog" (some Fmt.verbose) true
              else Handler.syslogNet host port (some Fmt.verbose) true
            else Handler.syslogNet host port (some Fmt.verbose) true
          hs1 ++ [h]
      let hs3 :=
        match sect.log_file with
        | none => hs2
        | some f => hs2 ++ [Handler.file f (some Fmt.verbose) true]
      Except.ok ⟨lg1.name, lg1.level, hs3⟩

/-! ## MPLogger receiver loop (logger.py lines 290-323)

The transport is abstracted to the finite trace of values successive
`queue.get()` calls would return: `none` is the pickled `None`
sentinel, `some r` a log record. We take the path with no minion user
configured and no exception raised, on which `self._running` stays
`True` throughout. -/

structure LogRec where
  name : String
  msg : String
deriving DecidableEq

inductive InnerExit
  | sentinel
  | blocked
deriving DecidableEq

/-- Result of one run of the inner `while self._running` loop:
records handled, number of `queue.get()` receive calls performed,
unread rest of the trace, and how the loop ended (`sentinel` for the
`break` on a `None` record, `blocked` for a `get` that would block
forever on the exhausted trace). -/
structure RecvSt where
  handled : List LogRec
  receives : Nat
  rest : List (Option LogRec)
  ekind : InnerExit
deriving DecidableEq

def innerLoop : List (Option LogRec) → RecvSt
  | [] => ⟨[], 0, [], InnerExit.blocked⟩
  | none :: rest => ⟨[], 1, rest, InnerExit.sentinel⟩
  | some r :: rest =>
    let st := innerLoop rest
    ⟨r :: st.handled, st.receives + 1, st.rest, st.ekind⟩

/-- The outer `while self._running` loop: after the inner loop breaks
on the sentinel, `self._running` is still `True`, so the outer loop
runs the inner loop again on the remaining trace. `fuel` bounds the
number of outer iterations of the otherwise unbounded loop. Returns
all handled records and the total number of receive calls. -/
def receiverOuter : Nat → List (Option LogRec) → List LogRec × Nat
  | 0, _ => ([], 0)
  | Nat.succ fuel, inbox =>
    let st := innerLoop inbox
    match st.ekind with
    | InnerExit.sentinel =>
      let next := receiverOuter fuel st.rest
      (st.handled ++ next.1, st.receives + next.2)
    | InnerExit.blocked => (st.handled, st.receives)

/-! ## Cache.store (cache.py lines 56-67) -/

/-- cache.py `Cache.store`: clamp `expire` at 604800 seconds and
forward `(reference, obj, expire)` to the backing cache. The returned
triple is exactly the argument list of the backend call. -/
def Cache.store (reference : String) (obj : α) (expire : Int) :
    String × α × Int :=
  (reference, obj, if 604800 < expire then 604800 else expire)

/-! ## Helper lemmas -/

theorem str_append_assoc (a b c : String) : a ++ b ++ c = a ++ (b ++ c) := by
  cases a with
  | mk la =>
    cases b with
    | mk lb =>
      cases c with
      | mk lc =>
        show String.mk ((la ++ lb) ++ lc) = String.mk (la ++ (lb ++ lc))
        rw [List.append_assoc]

theorem mk_data (s : String) : String.mk s.data = s := by
  cases s
  rfl

theorem string_ne_of_data_ne (s : String) (h : s.data ≠ []) : s ≠ "" := by
  intro he
  exact h (by rw [he])

theorem splitLinesChars_no_nl (l : List Char) (h : '\n' ∉ l) :
    splitLinesChars l = [l] := by
  induction l with
  | nil => rfl
  | cons c cs ih =>
    have hc : ¬ c = '\n' := fun he => h (he ▸ List.mem_cons_self c cs)
    have hcs : '\n' ∉ cs := fun hm => h (List.mem_cons_of_mem c hm)
    unfold splitLinesChars
    rw [if_neg hc]
    rw [ih hcs]

theorem chunkChars_single (m : Nat) (l : List Char) (h0 : l ≠ [])
    (hle : l.length ≤ m + 1) : chunkChars m l.length l = [l] := by
  match l with
  | [] => exact absurd rfl h0
  | c :: cs =>
    show ((c :: cs).take (m + 1)) :: chunkChars m cs.length ((c :: cs).drop (m + 1)) = _
    rw [List.take_of_length_le hle, List.drop_eq_nil_of_le hle]
    cases cs with
    | nil => rfl
    | cons d ds => rfl

theorem split_by_n_single (s : String) (hne : s.data ≠ [])
    (hle : s.data.length ≤ 300) : split_by_n s 300 = [s] := by
  show (chunkChars 299 s.data.length s.data).map String.mk = [s]
  rw [chunkChars_single 299 s.data hne (by omega)]
  simp [mk_data]

theorem logChunks_singleton (s : String) (hnl : '\n' ∉ s.data)
    (hne : s.data ≠ []) (hle : s.data.length ≤ 300) :
    logChunks s = [s] := by
  unfold logChunks list_of_lines
  rw [splitLinesChars_no_nl s.data hnl]
  simp [mk_data, split_by_n_single s hne hle]

theorem log_formatted_single (req fresh m : String) (p a lid : Option String)
    (hnl : '\n' ∉ (pyStrip m).data) (hne : (pyStrip m).data ≠ [])
    (hle : (pyStrip m).data.length ≤ 300) :
    log_formatted req fresh m p a none lid =
      some [idPart lid ++ bodyPart p (pyStrip m) ++ appPart a ++ " " ++ req] := by
  unfold log_formatted
  rw [if_neg (string_ne_of_data_ne _ hne)]
  show emitLines req fresh lid p a (logChunks (pyStrip m)) = _
  rw [logChunks_singleton _ hnl hne hle]
  rfl

theorem log_formatted_multi (req fresh m : String) (p a lid : Option String)
    (h : 1 < (logChunks (pyStrip m)).length) :
    log_formatted req fresh m p a none lid =
      some (renderMulti (lid.getD fresh) p a (logChunks (pyStrip m))) := by
  have hne : pyStrip m ≠ "" := by
    intro he
    rw [he] at h
    exact absurd h (by decide)
  unfold log_formatted
  rw [if_neg hne]
  show emitLines req fresh lid p a (logChunks (pyStrip m)) = _
  unfold emitLines
  rw [if_pos h]

theorem chunkLines_length (i : String) (chunks : List String) :
    (chunkLines i chunks).length = chunks.length := by
  unfold chunkLines
  rw [List.length_map, List.enum_length]

theorem renderMulti_length (i : String) (p a : Option String)
    (chunks : List String) :
    (renderMulti i p a chunks).length =
      (leadLines i p).length + chunks.length +
        (trailLines i a chunks.length).length := by
  unfold renderMulti
  rw [List.length_append, List.length_append, chunkLines_length]

theorem renderMulti_getLast (i : String) (p : Option String) (as2 : String)
    (chunks : List String) :
    (renderMulti i p (some as2) chunks).getLast? =
      some (corrTag i ++ "#" ++ toString (chunks.length + 1) ++ " " ++ as2) := by
  show ((leadLines i p ++ chunkLines i chunks) ++
    [corrTag i ++ "#" ++ toString (chunks.length + 1) ++ " " ++ as2]).getLast? = _
  exact List.getLast?_concat _

theorem renderMulti_mem (i : String) (p a : Option String)
    (chunks : List String) :
    ∀ l ∈ renderMulti i p a chunks, ∃ rest, l = corrTag i ++ rest := by
  intro l hl
  unfold renderMulti at hl
  rcases List.mem_append.mp hl with hl2 | hl2
  · rcases List.mem_append.mp hl2 with hl3 | hl3
    · cases p with
      | none => simp [leadLines] at hl3
      | some ps =>
        simp only [leadLines, List.mem_singleton] at hl3
        exact ⟨"#0 " ++ ps, by rw [hl3]; simp [str_append_assoc]⟩
    · unfold chunkLines at hl3
      rcases List.mem_map.mp hl3 with ⟨pr, _, hpr⟩
      exact ⟨toString (pr.1 + 1) ++ ("# " ++ pr.2),
        by rw [← hpr]; simp [str_append_assoc]⟩
  · cases a with
    | none => simp [trailLines] at hl2
    | some as2 =>
      simp only [trailLines, List.mem_singleton] at hl2
      exact ⟨"#" ++ (toString (chunks.length + 1) ++ (" " ++ as2)),
        by rw [hl2]; simp [str_append_assoc]⟩

/-! ## Claim theorems -/

/-- C1: the spec says receipt of the shutdown sentinel (a `None`
record) terminates the receive loop with no further receive calls.
The code only breaks the inner loop: `self._running` is still true, so
the outer loop re-enters the inner loop. On the trace whose first
received value is the sentinel followed by one record, the receiver
performs a second receive call and handles the record that arrived
after the sentinel, and on the trace holding only the sentinel the
loop comes back for one more (blocking) receive on the empty rest. -/
theorem C1_receive_after_sentinel :
    receiverOuter 2 [none, some ⟨"app", "m1"⟩] = ([⟨"app", "m1"⟩], 2) ∧
    (innerLoop [none]).ekind = InnerExit.sentinel ∧
    receiverOuter 2 [none] = ([], 1) :=
  ⟨rfl, rfl, rfl⟩

/-- C2: on a message that splits into N > 1 chunks, `log_formatted`
emits N + 2 lines when both prepend and append are supplied, with the
lead line tagged `#0` and the trailing line tagged `#<N+1>`; it emits
N + 1 lines when exactly one of them is supplied and N lines when
neither is, and every emitted line starts with the same correlation
tag `(id) `. -/
theorem C2_multichunk (req fresh m pstr astr : String) (lid : Option String)
    (h : 1 < (logChunks (pyStrip m)).length) :
    (∃ L, log_formatted req fresh m (some pstr) (some astr) none lid = some L ∧
      L.length = (logChunks (pyStrip m)).length + 2 ∧
      L.head? = some (corrTag (lid.getD fresh) ++ "#0 " ++ pstr) ∧
      L.getLast? = some (corrTag (lid.getD fresh) ++ "#" ++
        toString ((logChunks (pyStrip m)).length + 1) ++ " " ++ astr) ∧
      ∀ l ∈ L, ∃ rest, l = corrTag (lid.getD fresh) ++ rest) ∧
    (∃ L, log_formatted req fresh m none (some astr) none lid = some L ∧
      L.length = (logChunks (pyStrip m)).length + 1 ∧
      ∀ l ∈ L, ∃ rest, l = corrTag (lid.getD fresh) ++ rest) ∧
    (∃ L, log_formatted req fresh m (some pstr) none none lid = some L ∧
      L.length = (logChunks (pyStrip m)).length + 1 ∧
      ∀ l ∈ L, ∃ rest, l = corrTag (lid.getD fresh) ++ rest) ∧
    (∃ L, log_formatted req fresh m none none none lid = some L ∧
      L.length = (logChunks (pyStrip m)).length ∧
      ∀ l ∈ L, ∃ rest, l = corrTag (lid.getD fresh) ++ rest) := by
  refine
    ⟨⟨_, log_formatted_multi req fresh m (some pstr) (some astr) lid h, ?_, rfl,
        renderMulti_getLast _ _ _ _, renderMulti_mem _ _ _ _⟩,
      ⟨_, log_formatted_multi req fresh m none (some astr) lid h, ?_,
        renderMulti_mem _ _ _ _⟩,
      ⟨_, log_formatted_multi req fresh m (some pstr) none lid h, ?_,
        renderMulti_mem _ _ _ _⟩,
      ⟨_, log_formatted_multi req fresh m none none lid h, ?_,
        renderMulti_mem _ _ _ _⟩⟩ <;>
    rw [renderMulti_length] <;> simp [leadLines, trailLines] <;> omega

theorem C2_multichunk_witness :
    1 < (logChunks (pyStrip "a\nb")).length ∧
    (∃ L, log_formatted "R" "ZZ" "a\nb" (some "P") (some "A") none none = some L ∧
      L.length = 4) := by
  refine ⟨by decide, ?_⟩
  obtain ⟨L, hL, hlen, -, -, -⟩ :=
    (C2_multichunk "R" "ZZ" "a\nb" "P" "A" none (by decide)).1
  exact ⟨L, hL, by rw [hlen]; decide⟩

/-- C3: the spec says reconfiguring with the same section twice yields
the same handler set as configuring once, because every
reconfiguration clears all prior handlers. In the absent-application-
section path the code iterates over `logger.handlers` while removing
from it, which skips every other element: starting from two prior
handlers, one survives the first call, and the second call yields two
stdout handlers instead — different resulting handler sets, so the two
calls are not idempotent and the clearing claim fails. -/
theorem C3_reconfigure_not_idempotent :
    configure (fun _ => false) [] "application"
        ⟨"root", 30, [Handler.other 1, Handler.other 2]⟩ =
      Except.ok ⟨"root", 30,
        [Handler.other 2, Handler.stream (some Fmt.simple) true]⟩ ∧
    configure (fun _ => false) [] "application"
        ⟨"root", 30, [Handler.other 2, Handler.stream (some Fmt.simple) true]⟩ =
      Except.ok ⟨"root", 30, [Handler.stream (some Fmt.simple) true,
        Handler.stream (some Fmt.simple) true]⟩ ∧
    [Handler.other 2, Handler.stream (some Fmt.simple) true] ≠
      [Handler.stream (some Fmt.simple) true, Handler.stream (some Fmt.simple) true] :=
  ⟨rfl, rfl, by decide⟩

/-- C4: `set_level` accepts a numeric rank, and a string that is one
of the five names after upper-casing and stripping; any other string
produces a ValueError message naming the logger, and the logger is
returned unchanged (it keeps its prior level). -/
theorem C4_set_level (lg : PyLogger) (n : Int) (t s : String)
    (ht1 : pyParseInt t = none) (ht2 : pyStrip (pyUpper t) ∈ levelNames)
    (hs1 : pyParseInt s = none) (hs2 : pyStrip (pyUpper s) ∉ levelNames) :
    set_level lg (LevelArg.num n) = (⟨lg.name, n, lg.handlers⟩, none) ∧
    (set_level lg (LevelArg.str t)).2 = none ∧
    set_level lg (LevelArg.str s) =
      (lg, some ("Invalid logging level \x27" ++ pyStrip (pyUpper s) ++
        "\x27 for logger \x27" ++ lg.name ++ "\x27")) := by
  refine ⟨rfl, ?_, ?_⟩
  · simp only [set_level, ht1]
    rw [if_pos ht2]
  · simp only [set_level, hs1]
    rw [if_neg hs2]

theorem C4_set_level_witness :
    set_level ⟨"app", 30, []⟩ (LevelArg.num 7) = (⟨"app", 7, []⟩, none) ∧
    (set_level ⟨"app", 30, []⟩ (LevelArg.str " debug ")).2 = none ∧
    set_level ⟨"app", 30, []⟩ (LevelArg.str "NOPE") =
      (⟨"app", 30, []⟩,
        some "Invalid logging level \x27NOPE\x27 for logger \x27app\x27") := by
  have h := C4_set_level ⟨"app", 30, []⟩ 7 " debug " "NOPE"
    (by decide) (by decide) (by decide) (by decide)
  exact ⟨h.1, h.2.1, by rw [h.2.2]; rfl⟩

/-- C5 counterexample: the message `" "` is a single line shorter than
the 300-character bound, yet `log_formatted` emits zero lines for it
(it strips to the empty message), not exactly one line as claimed. -/
theorem C5_counterexample :
    log_formatted "" "Z" " " none none none none = some [] ∧
    '\n' ∉ (" ").data ∧ (" ").length < 300 :=
  ⟨rfl, by decide, by decide⟩

/-- C5 amended: for every message that is single-line, shorter than
the 300-character bound AND nonempty after whitespace stripping,
`log_formatted` emits exactly one line; the output does not depend on
the fresh random id (none is generated on this path), and the line
starts with a correlation tag exactly when an id was supplied. -/
theorem C5_single_line (req fresh f1 f2 m : String) (p a : Option String)
    (i : String)
    (hnl : '\n' ∉ (pyStrip m).data) (hne : (pyStrip m).data ≠ [])
    (hlen : (pyStrip m).data.length < 300) :
    (∃ l, log_formatted req fresh m p a none none = some [l]) ∧
    log_formatted req f1 m p a none none =
      log_formatted req f2 m p a none none ∧
    (∃ l, log_formatted req fresh m p a none (some i) =
      some [corrTag i ++ l]) := by
  have h1 := log_formatted_single req fresh m p a none hnl hne (le_of_lt hlen)
  have h2 := log_formatted_single req f1 m p a none hnl hne (le_of_lt hlen)
  have h3 := log_formatted_single req f2 m p a none hnl hne (le_of_lt hlen)
  have h4 := log_formatted_single req fresh m p a (some i) hnl hne (le_of_lt hlen)
  refine ⟨⟨_, h1⟩, by rw [h2, h3],
    ⟨bodyPart p (pyStrip m) ++ (appPart a ++ (" " ++ req)), ?_⟩⟩
  rw [h4]
  simp [idPart, str_append_assoc]

theorem C5_single_line_witness :
    (∃ l, log_formatted "" "F" "hello" (some "P") none none none = some [l]) ∧
    log_formatted "" "F1" "hello" (some "P") none none none =
      log_formatted "" "F2" "hello" (some "P") none none none := by
  have h := C5_single_line "" "F" "F1" "F2" "hello" (some "P") none "id7"
    (by decide) (by decide) (by decide)
  exact ⟨h.1, h.2.1⟩

/-- C6 counterexample: with no request context (`request` empty) the
single-chunk line for the message `"hi"` is rendered as `"hi "` — the
space separating the message from the request-context is emitted even
though the context is absent, leaving a trailing space, contrary to
the claim that no separator is produced for an absent field. -/
theorem C6_counterexample :
    log_formatted "" "Z" "hi" none none none none = some ["hi "] ∧
    "hi " ≠ "hi" :=
  ⟨rfl, by decide⟩

/-- C6 amended: on the single-chunk path the line is the correlation
tag, prepend, message and append in that order, absent fields omitted
and present fields separated by single spaces, followed by a space and
the request-context — the space before the request-context is emitted
unconditionally, so an empty request-context leaves a trailing space. -/
theorem C6_single_render (req fresh m : String) (p a lid : Option String)
    (hnl : '\n' ∉ (pyStrip m).data) (hne : (pyStrip m).data ≠ [])
    (hlen : (pyStrip m).data.length < 300) :
    log_formatted req fresh m p a none lid =
      some [idPart lid ++ bodyPart p (pyStrip m) ++ appPart a ++ " " ++ req] :=
  log_formatted_single req fresh m p a lid hnl hne (le_of_lt hlen)

theorem C6_single_render_witness :
    log_formatted "RX" "F" " msg " (some "P") (some "A") none (some "id") =
      some ["(id) P msg A RX"] := by
  have h := C6_single_render "RX" "F" " msg " (some "P") (some "A") (some "id")
    (by decide) (by decide) (by decide)
  rw [h]
  rfl

/-- C7: each GetLogger emit method checks the effective level before
formatting; when the effective level is strictly above the severity
rank, the call performs zero `log_formatted` invocations and emits
zero lines. -/
theorem C7_severity_gate (effLevel rank : Int) (request fresh msg : String)
    (prepend append timer log_id : Option String)
    (hsev : rank ∈ [CRITICAL, ERROR, WARNING, INFO, DEBUG])
    (hgt : rank < effLevel) :
    getLoggerEmit effLevel rank request fresh msg prepend append timer log_id =
      (some [], 0) := by
  unfold getLoggerEmit
  rw [if_neg (by omega)]

theorem C7_severity_gate_witness :
    getLoggerEmit ERROR INFO "r" "f" "hello" none none none none =
      (some [], 0) :=
  C7_severity_gate ERROR INFO "r" "f" "hello" none none none none
    (by decide) (by decide)

/-- C8: a message that strips to the empty string produces zero lines
and no error (the result is `some []`, never `none`), for any prepend,
append, supplied timer and correlation id. -/
theorem C8_empty_noop (request fresh msg : String)
    (p a timer lid : Option String) (h : pyStrip msg = "") :
    log_formatted request fresh msg p a timer lid = some [] := by
  unfold log_formatted
  rw [h]
  rfl

theorem C8_empty_noop_witness :
    log_formatted "r" "f" " \n\t " none none (some "2.0s") none = some [] :=
  C8_empty_noop "r" "f" " \n\t " none none (some "2.0s") none (by decide)

/-- C9: the spec says that with the application section absent the
logger is left with exactly one stdout handler with the simple
formatter, whatever was attached before. Because the removal loop
iterates over the list it is shortening, the second of two prior
handlers survives, and the result has two handlers. -/
theorem C9_absent_section_keeps_handler :
    configure (fun _ => false) [] "application"
        ⟨"root", 30, [Handler.other 5, Handler.other 6]⟩ =
      Except.ok ⟨"root", 30,
        [Handler.other 6, Handler.stream (some Fmt.simple) true]⟩ ∧
    [Handler.other 6, Handler.stream (some Fmt.simple) true].length ≠ 1 :=
  ⟨rfl, by decide⟩

/-- C10: `Cache.store` forwards `reference` and `obj` unchanged and
clamps the expiry at 604800 seconds: the forwarded expiry is exactly
`min expire 604800`. -/
theorem C10_store_clamp (α : Type) (reference : String) (obj : α)
    (expire : Int) :
    Cache.store reference obj expire = (reference, obj, min expire 604800) := by
  unfold Cache.store
  have h : (if 604800 < expire then (604800 : Int) else expire) =
      min expire 604800 := by
    rw [min_def]
    split <;> split <;> omega
  rw [h]
